import Mathlib

/-!
Verification of the Session Connection Manager of the whatsapp-qr-server
repository.  The repository holds several near-verbatim variants of one
Express/Baileys server: `src/index.js` contains two concatenated variants
(called the "index" variants below; where they agree we embed them once) and
`src/unnamed/part_000` holds the most complete variant (called the "P0"
variant: it adds the already-open short-circuit in `waitForConnectionOpen`,
the `hardResetSession` helper and the auto-heal branch of the close handler).

The embedding is shallow: the JavaScript `Map` stores become association
lists keyed by session id, socket handles become natural numbers allocated
from a counter, the wall clock (`new Date().toISOString()`, millisecond
resolution) becomes a `Nat` parameter supplied at each synchronous block,
and the Baileys socket is represented by the data the server consumes from
it (its event stream and the `registered` flag of its credential state).
-/

namespace WaServer

/-! ### Association-list operations (the JavaScript `Map` stores) -/

/-- `Map.delete`: remove the binding of key `k` (if any). -/
def alDel {α : Type} (l : List (String × α)) (k : String) : List (String × α) :=
  l.filter (fun p => p.1 != k)

/-- `Map.set`: bind key `k` to `v`, replacing any previous binding. -/
def alSet {α : Type} (l : List (String × α)) (k : String) (v : α) : List (String × α) :=
  (k, v) :: alDel l k

theorem lookup_alDel_self {α : Type} (l : List (String × α)) (k : String) :
    List.lookup k (alDel l k) = none := by
  induction l with
  | nil => rfl
  | cons p t ih =>
    by_cases h : p.1 = k
    · simp [alDel, h] at ih ⊢
      simpa [alDel] using ih
    · simp [alDel, h, List.lookup] at ih ⊢
      simp [show (k == p.1) = false by simp [BEq.comm]; exact fun hc => h hc.symm]
      simpa [alDel] using ih

theorem lookup_alSet_self {α : Type} (l : List (String × α)) (k : String) (v : α) :
    List.lookup k (alSet l k v) = some v := by
  simp [alSet, List.lookup]

/-! ### Status records and `setStatus` -/

/-- The fields a status record may carry.  `none` = the key was never written
(JavaScript `undefined`).  `connection` stores an `Option` value because the
handlers write `setStatus({ connection })` where `update.connection` itself
may be `undefined`. -/
structure StatusFields where
  phase : Option String := none
  connection : Option (Option String) := none
  connected : Option Bool := none
  hasQr : Option Bool := none
  registered : Option Bool := none
  lastError : Option String := none
  loggedOut : Option Bool := none
deriving Repr, DecidableEq

/-- A status-store entry: the merged fields plus the `updatedAt` stamp
written on every `setStatus` call (millisecond wall clock, modelled as
`Nat`). -/
structure StatusRecord where
  fields : StatusFields := {}
  updatedAt : Option Nat := none
deriving Repr, DecidableEq

/-- One key/value pair of a `setStatus` patch object. -/
inductive StatusAssign
  | phase (v : String)
  | connection (v : Option String)
  | connected (v : Bool)
  | hasQr (v : Bool)
  | registered (v : Bool)
  | lastError (v : String)
  | loggedOut (v : Bool)
deriving Repr, DecidableEq

/-- Spread semantics of `{ ...prev, ...patch }` for one patch key. -/
def StatusFields.apply : StatusFields → StatusAssign → StatusFields
  | f, .phase v => { f with phase := some v }
  | f, .connection v => { f with connection := some v }
  | f, .connected v => { f with connected := some v }
  | f, .hasQr v => { f with hasQr := some v }
  | f, .registered v => { f with registered := some v }
  | f, .lastError v => { f with lastError := some v }
  | f, .loggedOut v => { f with loggedOut := some v }

/-- `setStatus(sessionId, patch)`: merge the patch over the previous record
(`statusStore.get(sessionId) || {}`) and stamp `updatedAt` with the current
clock reading `now`. -/
def setStatus (now : Nat) (store : List (String × StatusRecord)) (id : String)
    (patch : List StatusAssign) : List (String × StatusRecord) :=
  let prev := (List.lookup id store).getD {}
  alSet store id { fields := patch.foldl StatusFields.apply prev.fields, updatedAt := some now }

/-- Projection used by the theorems: the `updatedAt` stamp of `id`'s record. -/
def statusUpdatedAt (store : List (String × StatusRecord)) (id : String) : Option Nat :=
  (List.lookup id store).bind (·.updatedAt)

/-- Projection: the `phase` field of `id`'s record. -/
def statusPhase (store : List (String × StatusRecord)) (id : String) : Option (Option String) :=
  (List.lookup id store).map (·.fields.phase)

/-- Projection: the `lastError` field of `id`'s record. -/
def statusLastError (store : List (String × StatusRecord)) (id : String) : Option (Option String) :=
  (List.lookup id store).map (·.fields.lastError)

/-- Projection: the `registered` field of `id`'s record. -/
def statusRegistered (store : List (String × StatusRecord)) (id : String) : Option (Option Bool) :=
  (List.lookup id store).map (·.fields.registered)

theorem lookup_setStatus_self (now : Nat) (store : List (String × StatusRecord))
    (id : String) (patch : List StatusAssign) :
    List.lookup id (setStatus now store id patch) =
      some { fields := patch.foldl StatusFields.apply (((List.lookup id store).getD {}).fields),
             updatedAt := some now } := by
  simp [setStatus, lookup_alSet_self]

theorem statusUpdatedAt_setStatus (now : Nat) (store : List (String × StatusRecord))
    (id : String) (patch : List StatusAssign) :
    statusUpdatedAt (setStatus now store id patch) id = some now := by
  simp [statusUpdatedAt, lookup_setStatus_self]

/-! ### Server state -/

/-- The part of the Baileys credential state the server consumes:
`state.creds.registered`.  `useMultiFileAuthState` yields a fresh state with
`registered` unset (falsy) when nothing is on disk. -/
structure Creds where
  registered : Bool
deriving Repr, DecidableEq

/-- The server's shared mutable state: the three `Map`s, the on-disk
credential directory (one blob per session id under `SESSION_DIR`), and a
counter allocating fresh socket handles (each `makeWASocket` call yields the
next handle). -/
structure SState where
  sessions : List (String × Nat) := []
  qrStore : List (String × String) := []
  statusStore : List (String × StatusRecord) := []
  disk : List (String × Creds) := []
  nextSock : Nat := 0
deriving Repr, DecidableEq

/-- `destroySocket(sessionId)` of the P0 variant: best-effort `sock.end()`
(no shared-state effect), then `sessions.delete` and `qrStore.delete`.
The status store and the on-disk credentials are untouched. -/
def destroySocket (st : SState) (id : String) : SState :=
  { st with sessions := alDel st.sessions id, qrStore := alDel st.qrStore id }

/-- `hardResetSession(sessionId)` of the P0 variant: destroy the socket,
`rmrfSafe(sessionPath(sessionId))` (purge the on-disk credentials), then
stamp the reset status. -/
def hardResetSession (now : Nat) (st : SState) (id : String) : SState :=
  let st1 := destroySocket st id
  let st2 := { st1 with disk := alDel st1.disk id }
  { st2 with statusStore := setStatus now st2.statusStore id [.phase "reset", .registered false, .hasQr false, .connected false] }

/-- `destroySession(sessionId)` of the second index variant: best-effort
logout/end, delete from all three maps, then `fs.rmSync` the session's
credential directory. -/
def destroySession (st : SState) (id : String) : SState :=
  { st with sessions := alDel st.sessions id, qrStore := alDel st.qrStore id,
            statusStore := alDel st.statusStore id, disk := alDel st.disk id }

/-! ### `createWhatsAppSession` (sequential execution) -/

/-- Result of one full run of `createWhatsAppSession`: the new server state,
the socket handle returned to the caller, whether a new socket was actually
constructed, and (when it was) the credential state that
`useMultiFileAuthState` loaded for it. -/
structure CreateOut where
  state : SState
  sock : Nat
  constructed : Bool
  loadedCreds : Option Creds
deriving Repr, DecidableEq

/-- `createWhatsAppSession(sessionId, ws)` of the P0 variant, run to
completion with no interleaving.  If the id is present the existing socket
is returned; otherwise the phase is stamped `creating`, the credential state
is loaded from disk (fresh unregistered state when absent), a socket is
constructed and stored, and the `created` status is stamped with the loaded
`registered` flag. -/
def createWhatsAppSession (now : Nat) (st : SState) (id : String) : CreateOut :=
  match List.lookup id st.sessions with
  | some sock => ⟨st, sock, false, none⟩
  | none =>
    let st1 := { st with statusStore := setStatus now st.statusStore id [.phase "creating"] }
    let creds := (List.lookup id st1.disk).getD ⟨false⟩
    let sock := st1.nextSock
    let st2 := { st1 with sessions := alSet st1.sessions id sock, nextSock := sock + 1 }
    let st3 := { st2 with statusStore := setStatus now st2.statusStore id [.phase "created", .registered creds.registered, .hasQr false, .connected false] }
    ⟨st3, sock, true, some creds⟩

/-- `createWhatsAppSession` of the second index variant; it differs from the
P0 one only in the `created` status patch
(`setStatus({ registered: !!sock.authState?.creds?.registered, phase: 'created' })`). -/
def createWhatsAppSessionIx (now : Nat) (st : SState) (id : String) : CreateOut :=
  match List.lookup id st.sessions with
  | some sock => ⟨st, sock, false, none⟩
  | none =>
    let st1 := { st with statusStore := setStatus now st.statusStore id [.phase "creating"] }
    let creds := (List.lookup id st1.disk).getD ⟨false⟩
    let sock := st1.nextSock
    let st2 := { st1 with sessions := alSet st1.sessions id sock, nextSock := sock + 1 }
    let st3 := { st2 with statusStore := setStatus now st2.statusStore id [.registered creds.registered, .phase "created"] }
    ⟨st3, sock, true, some creds⟩

/-! ### Disconnect classification -/

/-- `DisconnectReason.loggedOut` of the Baileys library (numeric code 401). -/
def loggedOutCode : Nat := 401

/-- The shape of `lastDisconnect?.error` as consumed by the close handlers:
`err?.message`, `err?.output?.statusCode` and `err?.output?.payload?.message`
(the latter compared to the numeric `DisconnectReason.loggedOut`). -/
structure CloseErr where
  message : Option String := none
  statusCode : Option Nat := none
  payloadMessage : Option Nat := none
deriving Repr, DecidableEq

/-- `err?.message || 'unknown'` (an absent error, absent message or empty
string all fall back to `'unknown'`). -/
def errMessage : Option CloseErr → String
  | none => "unknown"
  | some e =>
    match e.message with
    | some m => if m = "" then "unknown" else m
    | none => "unknown"

/-- `reason === DisconnectReason.loggedOut || code === DisconnectReason.loggedOut`. -/
def isLoggedOutClose (err : Option CloseErr) : Bool :=
  match err with
  | none => false
  | some e => e.payloadMessage == some loggedOutCode || e.statusCode == some loggedOutCode

/-- Does `pat` occur at the head of `s`? -/
def hasPre : List Char → List Char → Bool
  | [], _ => true
  | _ :: _, [] => false
  | p :: ps, c :: cs => p == c && hasPre ps cs

/-- Does `pat` occur anywhere inside `s`? -/
def hasSub (pat : List Char) : List Char → Bool
  | [] => hasPre pat []
  | c :: cs => hasPre pat (c :: cs) || hasSub pat cs

/-- `(msg || '').toLowerCase().includes('qr refs attempts ended')`. -/
def isExhaustionMsg (msg : String) : Bool :=
  hasSub ("qr refs attempts ended".data) (msg.data.map Char.toLower)

/-! ### The `connection.update` handlers -/

/-- One `connection.update` event payload as consumed by the handlers. -/
structure ConnUpdate where
  connection : Option String := none
  qr : Option String := none
  lastDisconnect : Option CloseErr := none
deriving Repr, DecidableEq

/-- A close event carrying `lastDisconnect.error = err`. -/
def closeUpd (err : Option CloseErr) : ConnUpdate :=
  { connection := some "close", qr := none, lastDisconnect := err }

/-- The external artifact renderer (`QRCode.toDataURL`), modelled as a pure
encoding. -/
def renderQr (q : String) : String := "data:image/png;base64," ++ q

/-- What the handler schedules after returning: nothing, or the auto-heal
`await delay(ms); await createWhatsAppSession(sessionId, ws)`. -/
inductive CloseAction
  | noop
  | recreate (delayMs : Nat)
deriving Repr, DecidableEq

/-- The `connection.update` handler of the P0 variant.  On close it stamps
the failure status, then classifies: logged-out (drop the in-memory
session), the `qr refs attempts ended` exhaustion pattern (drop and schedule
recreation after 1500 ms), otherwise drop the in-memory session. -/
def connectionUpdateP0 (now : Nat) (st : SState) (id : String) (u : ConnUpdate) :
    SState × CloseAction :=
  let st := { st with statusStore := setStatus now st.statusStore id [.connection u.connection] }
  let st :=
    match u.qr with
    | some q =>
      { st with qrStore := alSet st.qrStore id (renderQr q),
                statusStore := setStatus now st.statusStore id [.hasQr true, .phase "qr_ready"] }
    | none => st
  let st :=
    if u.connection == some "open" then
      { st with statusStore := setStatus now st.statusStore id [.connected true, .phase "open", .hasQr false] }
    else st
  if u.connection == some "close" then
    let msg := errMessage u.lastDisconnect
    let st := { st with statusStore := setStatus now st.statusStore id [.connected false, .phase "closed", .lastError msg, .hasQr false] }
    if isLoggedOutClose u.lastDisconnect then
      (destroySocket st id, .noop)
    else if isExhaustionMsg msg then
      let st := destroySocket st id
      let st := { st with statusStore := setStatus now st.statusStore id [.phase "auto_recreate_after_qr_end"] }
      (st, .recreate 1500)
    else
      (destroySocket st id, .noop)
  else (st, .noop)

/-- The `connection.update` handler of the index variants.  On close it
stamps the failure status; only the logged-out reason removes the in-memory
session (and stamps `loggedOut`); every other close leaves the session in
the registry, and no recreation is ever scheduled. -/
def connectionUpdateIx (now : Nat) (st : SState) (id : String) (u : ConnUpdate) :
    SState × CloseAction :=
  let st := { st with statusStore := setStatus now st.statusStore id [.connection u.connection, .hasQr u.qr.isSome] }
  let st :=
    match u.qr with
    | some q => { st with qrStore := alSet st.qrStore id (renderQr q) }
    | none => st
  let st :=
    if u.connection == some "open" then
      { st with statusStore := setStatus now st.statusStore id [.connected true, .phase "open"] }
    else st
  if u.connection == some "close" then
    let msg := errMessage u.lastDisconnect
    let st := { st with statusStore := setStatus now st.statusStore id [.connected false, .phase "closed", .lastError msg] }
    if isLoggedOutClose u.lastDisconnect then
      let st := { st with sessions := alDel st.sessions id, qrStore := alDel st.qrStore id }
      ({ st with statusStore := setStatus now st.statusStore id [.loggedOut true] }, .noop)
    else (st, .noop)
  else (st, .noop)

/-- The disconnect error of an authentication-exhaustion closure as Baileys
produces it (`new Boom('QR refs attempts ended')`). -/
def exhaustionErr : Option CloseErr :=
  some { message := some "QR refs attempts ended", statusCode := none, payloadMessage := none }

/-- `k` consecutive exhaustion-classified closures of the P0 variant, each
followed by the scheduled auto-heal recreation.  Returns the number of
automatic recreations that were performed and the final state; the sequence
stops early if a closure does not schedule a recreation. -/
def autoHealSteps (now : Nat) (id : String) : Nat → SState → Nat × SState
  | 0, st => (0, st)
  | k + 1, st =>
    match connectionUpdateP0 now st id (closeUpd exhaustionErr) with
    | (st1, CloseAction.recreate _) =>
      let out := createWhatsAppSession now st1 id
      let r := autoHealSteps now id k out.state
      (r.1 + 1, r.2)
    | (st1, CloseAction.noop) => (0, st1)

/-! ### `waitForConnectionOpen` -/

/-- The three ways the `waitForConnectionOpen` promise can settle. -/
inductive WaitOutcome
  | opened
  | closedBeforeOpen
  | timedOut
deriving Repr, DecidableEq

/-- The promise machinery of `waitForConnectionOpen`: the `done` flag, the
listener-registration state of `onUpdate` on `connection.update`, and the
settled value (if any). -/
structure WaitMachine where
  done : Bool := false
  listenerOn : Bool := true
  result : Option WaitOutcome := none
deriving Repr, DecidableEq

/-- The `onUpdate` listener: delivered only while registered; the first
`open` or `close` value settles the promise, deregisters the listener and
cancels the timer. -/
def waitOnUpdate (m : WaitMachine) (c : Option String) : WaitMachine :=
  if m.listenerOn = false then m
  else
    let m1 :=
      if c == some "open" then
        if m.done then m else { done := true, listenerOn := false, result := some .opened }
      else m
    if c == some "close" then
      if m1.done then m1 else { done := true, listenerOn := false, result := some .closedBeforeOpen }
    else m1

/-- The `setTimeout` callback: if nothing settled the promise yet, settle it
with the timeout error and deregister the listener. -/
def waitFireTimer (m : WaitMachine) : WaitMachine :=
  if m.done then m else { done := true, listenerOn := false, result := some .timedOut }

/-- `waitForConnectionOpen(sock, timeoutMs)` of the index variants, run
against the timed event trace `events` (delivery order, each event stamped
with its arrival time): events arriving before the timeout are delivered to
the listener, then the timer fires, then any later events are delivered (to
a by-then deregistered listener). -/
def waitForConnectionOpenIx (timeoutMs : Nat) (events : List (Nat × Option String)) :
    WaitMachine :=
  (events.filter (fun e => ¬ e.1 < timeoutMs)).foldl (fun m e => waitOnUpdate m e.2)
    (waitFireTimer ((events.filter (fun e => e.1 < timeoutMs)).foldl (fun m e => waitOnUpdate m e.2) {}))

/-- `s?.connection === 'open' || s?.connected === true` on the status record
of the session (the already-open short-circuit of the P0 variant). -/
def statusLooksOpen (s : Option StatusRecord) : Bool :=
  match s with
  | none => false
  | some r => r.fields.connection == some (some "open") || r.fields.connected == some true

/-- `waitForConnectionOpen(sessionId, sock, timeoutMs)` of the P0 variant:
if the status store already shows the session open it resolves immediately
(no listener is ever registered); otherwise it behaves like the index
variant. -/
def waitForConnectionOpenP0 (store : List (String × StatusRecord)) (id : String)
    (timeoutMs : Nat) (events : List (Nat × Option String)) : WaitMachine :=
  if statusLooksOpen (List.lookup id store) then
    { done := true, listenerOn := false, result := some .opened }
  else waitForConnectionOpenIx timeoutMs events

/-- Spec-side verdict (written from the spec's words, for the refinement
statement): success exactly when an `open` event is observed before any
`close` event and before the timeout elapses; a `close` first fails with the
close reason; otherwise the timeout fires. -/
def specWaitVerdict (timeoutMs : Nat) (events : List (Nat × Option String)) : WaitOutcome :=
  match (events.filter (fun e => e.1 < timeoutMs)).find?
      (fun e => e.2 == some "open" || e.2 == some "close") with
  | some e => if e.2 == some "open" then .opened else .closedBeforeOpen
  | none => .timedOut

/-! ### Interleaved execution of `createWhatsAppSession`

`createWhatsAppSession` has two suspension points between its presence check
and its registry commit: `await useMultiFileAuthState(...)` and
`await fetchLatestBaileysVersion()`.  Under the single-threaded cooperative
scheduler each task runs synchronous blocks atomically and can only be
preempted at those awaits, so one invocation is three atomic steps. -/

/-- The program counter of one `createWhatsAppSession(id)` task.
`entry`: about to run the synchronous prologue (presence check and
`setStatus('creating')`), then suspend at the credential load.
`loading`: suspended at `useMultiFileAuthState`.
`fetching`: suspended at `fetchLatestBaileysVersion`; resuming runs the
synchronous tail (construct the socket, commit it to the registry, stamp the
`created` status) to completion. -/
inductive CreatePC
  | entry
  | loading
  | fetching
  | finished (sock : Nat)
deriving Repr, DecidableEq

/-- Run one atomic step of a `createWhatsAppSession(id)` task.  Returns the
new shared state, the number of socket constructions this step performed,
and the new program counter. -/
def createStep (now : Nat) (id : String) (st : SState) : CreatePC → SState × Nat × CreatePC
  | .entry =>
    match List.lookup id st.sessions with
    | some sock => (st, 0, .finished sock)
    | none =>
      ({ st with statusStore := setStatus now st.statusStore id [.phase "creating"] }, 0, .loading)
  | .loading => (st, 0, .fetching)
  | .fetching =>
    let creds := (List.lookup id st.disk).getD ⟨false⟩
    let sock := st.nextSock
    let st1 := { st with sessions := alSet st.sessions id sock, nextSock := sock + 1 }
    let st2 := { st1 with statusStore := setStatus now st1.statusStore id [.phase "created", .registered creds.registered, .hasQr false, .connected false] }
    (st2, 1, .finished sock)
  | .finished sock => (st, 0, .finished sock)

/-- Two concurrent `createWhatsAppSession(id)` callers (task `A` and task
`B`) sharing the server state, plus the running count of socket
constructions. -/
structure RaceState where
  server : SState
  constructions : Nat
  taskA : CreatePC
  taskB : CreatePC
deriving Repr, DecidableEq

/-- Both tasks start at their entry points on a fresh server. -/
def raceInit : RaceState :=
  { server := {}, constructions := 0, taskA := .entry, taskB := .entry }

/-- Schedule one step: `true` advances task `A`, `false` advances task `B`. -/
def raceStep (now : Nat) (id : String) (rs : RaceState) (pick : Bool) : RaceState :=
  if pick then
    let r := createStep now id rs.server rs.taskA
    { rs with server := r.1, constructions := rs.constructions + r.2.1, taskA := r.2.2 }
  else
    let r := createStep now id rs.server rs.taskB
    { rs with server := r.1, constructions := rs.constructions + r.2.1, taskB := r.2.2 }

/-- Run a whole schedule. -/
def raceRun (now : Nat) (id : String) (sched : List Bool) (rs : RaceState) : RaceState :=
  sched.foldl (raceStep now id) rs

/-! ### The pairing flow (`POST /pair/:sessionId`) -/

/-- `replace(/\D/g, '')`: keep exactly the decimal-digit characters. -/
def normalizePhone (s : String) : String :=
  ⟨s.data.filter Char.isDigit⟩

/-- Environment oracle for one pairing attempt: either
`waitForConnectionOpen` rejects (timeout or close-before-open), or
`sock.requestPairingCode` rejects, or the pairing code is issued. -/
inductive AttemptRes
  | waitFail (e : String)
  | codeFail (e : String)
  | codeOk (c : String)
deriving Repr, DecidableEq

/-- Does the attempt produce a pairing code? -/
def AttemptRes.isOk : AttemptRes → Bool
  | .codeOk _ => true
  | _ => false

/-- The error message of a failing attempt. -/
def attemptErr : AttemptRes → String
  | .waitFail e => e
  | .codeFail e => e
  | .codeOk _ => ""

/-- The issued code of a successful attempt. -/
def attemptCode : AttemptRes → String
  | .codeOk c => c
  | _ => ""

/-- Observable actions of a pairing-flow run, in execution order. -/
inductive PairAct
  | phaseMark (s : String)
  | destroy
  | create (constructed : Bool)
  | waitOpen (ok : Bool)
  | reqCode (phone : String)
  | issued
  | delayStep (ms : Nat)
deriving Repr, DecidableEq

/-- One pairing attempt of the P0 variant (`attempt = k`): stamp
`pair_attempt_k`, force-destroy the socket (every attempt), recreate via
`createWhatsAppSession`, wait for open, request the pairing code, stamp
`pairing_code_issued` on success. -/
def pairAttemptP0 (now : Nat) (env : Nat → AttemptRes) (phone : String) (id : String)
    (k : Nat) (st : SState) : SState × List PairAct × Except String String :=
  let st := { st with statusStore := setStatus now st.statusStore id [.phase ("pair_attempt_" ++ toString k)] }
  let st := destroySocket st id
  let out := createWhatsAppSession now st id
  let tr := [PairAct.phaseMark ("pair_attempt_" ++ toString k), PairAct.destroy, PairAct.create out.constructed]
  match env k with
  | .waitFail e => (out.state, tr ++ [.waitOpen false], .error e)
  | .codeFail e => (out.state, tr ++ [.waitOpen true, .reqCode phone], .error e)
  | .codeOk c =>
    let st1 := { out.state with statusStore := setStatus now out.state.statusStore id [.phase "pairing_code_issued"] }
    (st1, tr ++ [.waitOpen true, .reqCode phone, .issued], .ok c)

/-- One pairing attempt of the second index variant: as above, except the
force-destroy (`old.end(); sessions.delete; qrStore.delete`) runs only when
`attempt > 1`. -/
def pairAttemptIx (now : Nat) (env : Nat → AttemptRes) (phone : String) (id : String)
    (k : Nat) (st : SState) : SState × List PairAct × Except String String :=
  let st := { st with statusStore := setStatus now st.statusStore id [.phase ("pair_attempt_" ++ toString k)] }
  let tr0 := [PairAct.phaseMark ("pair_attempt_" ++ toString k)]
  let p := if 1 < k then (destroySocket st id, tr0 ++ [PairAct.destroy]) else (st, tr0)
  let out := createWhatsAppSessionIx now p.1 id
  let tr := p.2 ++ [PairAct.create out.constructed]
  match env k with
  | .waitFail e => (out.state, tr ++ [.waitOpen false], .error e)
  | .codeFail e => (out.state, tr ++ [.waitOpen true, .reqCode phone], .error e)
  | .codeOk c =>
    let st1 := { out.state with statusStore := setStatus now out.state.statusStore id [.phase "pairing_code_issued"] }
    (st1, tr ++ [.waitOpen true, .reqCode phone, .issued], .ok c)

/-- The `retry(fn, tries, delayMs)` helper, specialised to the pairing
attempt: run `fn(i)` for `i = 1, 2, ...` until the first success or until
`tries` attempts failed; each failure is followed by the fixed delay; after
the last failure the last error is thrown.  Also returns the action trace
and the number of attempts executed. -/
def retryRun (attemptFn : Nat → SState → SState × List PairAct × Except String String)
    (delayMs : Nat) : Nat → Nat → Option String → SState →
    SState × List PairAct × Nat × Except (Option String) String
  | _, 0, last, st => (st, [], 0, .error last)
  | i, n + 1, _, st =>
    match attemptFn i st with
    | (st1, tr, .ok c) => (st1, tr, 1, .ok c)
    | (st1, tr, .error e) =>
      match retryRun attemptFn delayMs (i + 1) n (some e) st1 with
      | (st2, tr2, m, r) => (st2, tr ++ [.delayStep delayMs] ++ tr2, m + 1, r)

/-- The HTTP response of `POST /pair/:sessionId`. -/
inductive PairResp
  | ok (code : String)
  | badRequest
  | serverError (msg : String)
deriving Repr, DecidableEq

/-- `POST /pair/:sessionId` of the P0 variant: normalize the phone number,
reject an empty result with 400 before any session work, otherwise run the
bounded retry loop (`tries = 3`, `delayMs = 3000`); on overall failure stamp
`pairing_failed`/`lastError` and answer 500. -/
def pairRouteP0 (now : Nat) (env : Nat → AttemptRes) (st : SState) (id : String)
    (body : Option String) : SState × List PairAct × Nat × PairResp :=
  let phone := normalizePhone (body.getD "")
  if phone = "" then (st, [], 0, .badRequest)
  else
    match retryRun (pairAttemptP0 now env phone id) 3000 1 3 none st with
    | (st1, tr, m, .ok c) => (st1, tr, m, .ok c)
    | (st1, tr, m, .error e) =>
      let msg := e.getD "unknown"
      ({ st1 with statusStore := setStatus now st1.statusStore id [.phase "pairing_failed", .lastError msg] }, tr, m, .serverError msg)

/-- `POST /pair/:sessionId` of the second index variant (`tries = 3`,
`delayMs = 2000`, destroy only on attempts after the first). -/
def pairRouteIx (now : Nat) (env : Nat → AttemptRes) (st : SState) (id : String)
    (body : Option String) : SState × List PairAct × Nat × PairResp :=
  let phone := normalizePhone (body.getD "")
  if phone = "" then (st, [], 0, .badRequest)
  else
    match retryRun (pairAttemptIx now env phone id) 2000 1 3 none st with
    | (st1, tr, m, .ok c) => (st1, tr, m, .ok c)
    | (st1, tr, m, .error e) =>
      let msg := e.getD "unknown"
      ({ st1 with statusStore := setStatus now st1.statusStore id [.phase "pairing_failed", .lastError msg] }, tr, m, .serverError msg)

/-- Count of force-destroy actions in a trace. -/
def isDestroyAct : PairAct → Bool
  | .destroy => true
  | _ => false

/-- Number of force-destroys in a pairing trace. -/
def destroyCount (tr : List PairAct) : Nat :=
  (tr.filter isDestroyAct).length

/-- Do all delays of a pairing trace use the fixed duration `d`? -/
def delaysAllAre (d : Nat) (tr : List PairAct) : Bool :=
  tr.all (fun a => match a with | .delayStep x => x == d | _ => true)

/-- Do all pairing-code requests of the trace use the phone number `p`? -/
def reqCodesAllUse (p : String) (tr : List PairAct) : Bool :=
  tr.all (fun a => match a with | .reqCode x => x == p | _ => true)

/-! ### `GET /session/:sessionId` (the status projection) -/

/-- `x || null` on an optional string field (the empty string is falsy). -/
def jsOrNullS : Option String → Option String
  | some s => if s = "" then none else some s
  | none => none

/-- The JSON body of `GET /session/:sessionId`. -/
structure StatusView where
  connected : Bool
  connection : Option String
  hasQr : Bool
  registered : Option Bool
  phase : Option String
  lastError : Option String
  updatedAt : Option Nat
deriving Repr, DecidableEq

/-- `GET /session/:sessionId`: project `statusStore.get(sessionId) || {}`
through the JavaScript coercions (`!!`, `|| null`, `?? null`).  The route
only reads, so it returns the server state unchanged. -/
def getSessionRoute (st : SState) (id : String) : StatusView × SState :=
  let s := (List.lookup id st.statusStore).getD {}
  ({ connected := s.fields.connected.getD false,
     connection := jsOrNullS (s.fields.connection.getD none),
     hasQr := s.fields.hasQr.getD false,
     registered := s.fields.registered,
     phase := jsOrNullS s.fields.phase,
     lastError := jsOrNullS s.fields.lastError,
     updatedAt := s.updatedAt }, st)

/-! ## Helper lemmas -/

theorem createWhatsAppSession_loadedCreds_of_absent (now : Nat) (st : SState) (id : String)
    (h : List.lookup id st.sessions = none) :
    (createWhatsAppSession now st id).loadedCreds = some ((List.lookup id st.disk).getD ⟨false⟩) := by
  simp [createWhatsAppSession, h]

theorem createWhatsAppSessionIx_loadedCreds_of_absent (now : Nat) (st : SState) (id : String)
    (h : List.lookup id st.sessions = none) :
    (createWhatsAppSessionIx now st id).loadedCreds = some ((List.lookup id st.disk).getD ⟨false⟩) := by
  simp [createWhatsAppSessionIx, h]

/-! ## C5 : monotonicity of `updatedAt` -/

/-- C5 counterexample: the claim "`updatedAt` strictly increases on every
mutation" fails on the code.  `updatedAt` is `new Date().toISOString()`, a
millisecond wall-clock reading, and the close handler performs two
`setStatus` mutations in one synchronous block (`setStatus({ connection })`
followed by `setStatus({ connected: false, phase: 'closed', ... })`), i.e.
at the same clock reading: the second mutation's `updatedAt` equals the
first's instead of strictly exceeding it. -/
theorem c5_updatedAt_not_strict :
    statusUpdatedAt (setStatus 1000 (setStatus 1000 [] "s1" [.connection (some "close")]) "s1"
      [.connected false, .phase "closed", .lastError "unknown", .hasQr false]) "s1" =
    statusUpdatedAt (setStatus 1000 [] "s1" [.connection (some "close")]) "s1" := by
  decide

/-- C5 amended: every `setStatus` mutation stamps `updatedAt` with the clock
reading at mutation time, so across two consecutive mutations `updatedAt`
goes from the first reading to the second: it is strictly increasing exactly
when the clock strictly advanced between the mutations, and unchanged when
both mutations fall in the same millisecond. -/
theorem c5_updatedAt_tracks_clock (t1 t2 : Nat) (store : List (String × StatusRecord))
    (id : String) (p1 p2 : List StatusAssign) :
    statusUpdatedAt (setStatus t1 store id p1) id = some t1 ∧
    statusUpdatedAt (setStatus t2 (setStatus t1 store id p1) id p2) id = some t2 :=
  ⟨statusUpdatedAt_setStatus t1 store id p1,
   statusUpdatedAt_setStatus t2 (setStatus t1 store id p1) id p2⟩

/-! ## C8 : reset purges credentials -/

/-- C8: `reset(id)` (P0 `hardResetSession`, index `destroySession`) removes
the session's connection handle and purges its on-disk credential material
in every state, so an immediately following `createSession(id)` loads a
fresh unregistered credential state and stamps `registered = false`
regardless of the prior registration state. -/
theorem c8_reset_then_create_unregistered (now n2 : Nat) (st : SState) (id : String) :
    List.lookup id (hardResetSession now st id).disk = none ∧
    List.lookup id (hardResetSession now st id).sessions = none ∧
    (createWhatsAppSession n2 (hardResetSession now st id) id).constructed = true ∧
    (createWhatsAppSession n2 (hardResetSession now st id) id).loadedCreds = some ⟨false⟩ ∧
    statusRegistered (createWhatsAppSession n2 (hardResetSession now st id) id).state.statusStore id = some (some false) ∧
    List.lookup id (destroySession st id).disk = none ∧
    List.lookup id (destroySession st id).sessions = none ∧
    (createWhatsAppSessionIx n2 (destroySession st id) id).loadedCreds = some ⟨false⟩ ∧
    statusRegistered (createWhatsAppSessionIx n2 (destroySession st id) id).state.statusStore id = some (some false) := by
  refine ⟨?_, ?_, ?_, ?_, ?_, ?_, ?_, ?_, ?_⟩ <;>
    simp [hardResetSession, destroySession, destroySocket, createWhatsAppSession,
      createWhatsAppSessionIx, lookup_alDel_self, statusRegistered, lookup_setStatus_self,
      StatusFields.apply]

/-! ## C10 : status query for an unknown id -/

/-- C10: for a session id with no status record, `GET /session/:sessionId`
does not answer with an absent marker: it returns the default-shaped record
(`connected = false`, `connection`/`hasQr` falsy, `registered`, `phase`,
`lastError`, `updatedAt` all `null`) and mutates no store. -/
theorem c10_status_absent_default (st : SState) (id : String)
    (h : List.lookup id st.statusStore = none) :
    getSessionRoute st id =
      ({ connected := false, connection := none, hasQr := false, registered := none,
         phase := none, lastError := none, updatedAt := none }, st) := by
  simp [getSessionRoute, h, jsOrNullS]

/-- C10 witness: the empty server with the never-created id `s1`. -/
theorem c10_status_absent_default_witness :
    getSessionRoute {} "s1" =
      ({ connected := false, connection := none, hasQr := false, registered := none,
         phase := none, lastError := none, updatedAt := none }, {}) :=
  c10_status_absent_default {} "s1" rfl

/-! ## C2 : `waitForConnectionOpen` -/

theorem waitOnUpdate_off (m : WaitMachine) (c : Option String) (h : m.listenerOn = false) :
    waitOnUpdate m c = m := by
  simp [waitOnUpdate, h]

theorem foldl_waitOnUpdate_off (l : List (Nat × Option String)) (m : WaitMachine)
    (h : m.listenerOn = false) :
    l.foldl (fun m e => waitOnUpdate m e.2) m = m := by
  induction l with
  | nil => rfl
  | cons e t ih => simp [waitOnUpdate_off m e.2 h, ih]

/-- The machine in which the promise settled with `r`. -/
def settled (r : WaitOutcome) : WaitMachine :=
  { done := true, listenerOn := false, result := some r }

theorem foldl_waitOnUpdate_characterization (l : List (Nat × Option String)) :
    l.foldl (fun m e => waitOnUpdate m e.2) {} =
      match l.find? (fun e => e.2 == some "open" || e.2 == some "close") with
      | some e => if e.2 == some "open" then settled .opened else settled .closedBeforeOpen
      | none => {} := by
  induction l with
  | nil => rfl
  | cons e t ih =>
    rcases e with ⟨te, ce⟩
    simp only [List.foldl_cons]
    by_cases ho : ce = some "open"
    · subst ho
      have h1 : waitOnUpdate {} ((te, some "open") : Nat × Option String).2 = settled .opened := rfl
      rw [h1, foldl_waitOnUpdate_off t (settled .opened) rfl]
      simp [List.find?]
    · by_cases hc : ce = some "close"
      · subst hc
        have h1 : waitOnUpdate {} ((te, some "close") : Nat × Option String).2 =
            settled .closedBeforeOpen := rfl
        rw [h1, foldl_waitOnUpdate_off t (settled .closedBeforeOpen) rfl]
        simp [List.find?, ho]
      · have h1 : waitOnUpdate {} ((te, ce) : Nat × Option String).2 = {} := by
          simp [waitOnUpdate, ho, hc]
        rw [h1, ih]
        have hpred : ((ce == some "open") || (ce == some "close")) = false := by
          simp [ho, hc]
        simp [List.find?, hpred]

/-- C2 amended: `waitForConnectionOpen` settles exactly once in every run —
with success exactly when an `open` event is delivered before any `close`
event and before the timeout, with the close failure when a `close` comes
first, and with the timeout failure otherwise — and the `connection.update`
listener is deregistered in every outcome.  The already-open short-circuit
exists only in the `part_000` variant (`waitForConnectionOpenP0`, which
resolves successfully at once when the status record shows the session
open); the `src/index.js` variant (`waitForConnectionOpenIx`) has no
short-circuit and its outcome depends only on the delivered events. -/
theorem c2_wait_for_open (store : List (String × StatusRecord)) (id : String)
    (timeoutMs : Nat) (events : List (Nat × Option String)) :
    (waitForConnectionOpenIx timeoutMs events).result = some (specWaitVerdict timeoutMs events) ∧
    (waitForConnectionOpenIx timeoutMs events).done = true ∧
    (waitForConnectionOpenIx timeoutMs events).listenerOn = false ∧
    (waitForConnectionOpenP0 store id timeoutMs events).result =
      some (if statusLooksOpen (List.lookup id store) then .opened
            else specWaitVerdict timeoutMs events) ∧
    (waitForConnectionOpenP0 store id timeoutMs events).listenerOn = false := by
  have hIx : waitForConnectionOpenIx timeoutMs events =
      settled (specWaitVerdict timeoutMs events) := by
    unfold waitForConnectionOpenIx specWaitVerdict
    rw [foldl_waitOnUpdate_characterization]
    rcases hf : (events.filter (fun e => e.1 < timeoutMs)).find?
        (fun e => e.2 == some "open" || e.2 == some "close") with _ | e
    · rw [hf]
      rw [show waitFireTimer {} = settled .timedOut from rfl]
      exact foldl_waitOnUpdate_off _ (settled .timedOut) rfl
    · rw [hf]
      by_cases ho : (e.2 == some "open") = true
      · simp only [ho, if_true]
        rw [show waitFireTimer (settled .opened) = settled .opened from rfl]
        exact foldl_waitOnUpdate_off _ (settled .opened) rfl
      · simp only [eq_false_of_ne_true ho, Bool.false_eq_true, if_false]
        rw [show waitFireTimer (settled .closedBeforeOpen) = settled .closedBeforeOpen from rfl]
        exact foldl_waitOnUpdate_off _ (settled .closedBeforeOpen) rfl
  refine ⟨by rw [hIx]; rfl, by rw [hIx]; rfl, by rw [hIx]; rfl, ?_, ?_⟩
  · unfold waitForConnectionOpenP0
    by_cases hopen : statusLooksOpen (List.lookup id store) <;> simp [hopen, hIx, settled]
  · unfold waitForConnectionOpenP0
    by_cases hopen : statusLooksOpen (List.lookup id store) <;> simp [hopen, hIx, settled]

/-- Status record of a session that is currently open. -/
def openRecord : StatusRecord :=
  { fields := { connection := some (some "open"), connected := some true, phase := some "open" },
    updatedAt := some 0 }

/-- C2 counterexample: the claim also covers the `src/index.js`
`waitForConnectionOpen`, but that variant has no already-open short-circuit:
with the session already `open` at call time (per its status record) and no
further `connection.update` event arriving, it rejects with the timeout
error instead of resolving successfully, while the `part_000` variant
resolves immediately. -/
theorem c2_index_variant_no_short_circuit :
    statusLooksOpen (List.lookup "s1" [("s1", openRecord)]) = true ∧
    (waitForConnectionOpenIx 25000 []).result = some WaitOutcome.timedOut ∧
    (waitForConnectionOpenP0 [("s1", openRecord)] "s1" 25000 []).result =
      some WaitOutcome.opened := by
  decide

/-! ## C3 : recovery classification of close events -/

/-- C3 amended: the three-branch first-match-wins classification (logged-out
removes the in-memory session with no recreation; the authentication-
exhaustion pattern destroys the session and schedules its recreation after
the fixed 1500 ms delay; any other reason destroys the in-memory session,
leaves `lastError` visible and does not recreate) holds of the `part_000`
close handler.  The `src/index.js` close handlers implement only the
logged-out branch: on any other close reason the session stays in the
registry (with `lastError` visible) and no recreation is ever scheduled. -/
theorem c3_close_classification (now : Nat) (st : SState) (id : String) (err : Option CloseErr) :
    if isLoggedOutClose err = true then
      List.lookup id (connectionUpdateP0 now st id (closeUpd err)).1.sessions = none ∧
      (connectionUpdateP0 now st id (closeUpd err)).2 = CloseAction.noop ∧
      List.lookup id (connectionUpdateIx now st id (closeUpd err)).1.sessions = none ∧
      (connectionUpdateIx now st id (closeUpd err)).2 = CloseAction.noop
    else if isExhaustionMsg (errMessage err) = true then
      List.lookup id (connectionUpdateP0 now st id (closeUpd err)).1.sessions = none ∧
      (connectionUpdateP0 now st id (closeUpd err)).2 = CloseAction.recreate 1500 ∧
      statusLastError (connectionUpdateP0 now st id (closeUpd err)).1.statusStore id = some (some (errMessage err)) ∧
      (connectionUpdateIx now st id (closeUpd err)).1.sessions = st.sessions ∧
      (connectionUpdateIx now st id (closeUpd err)).2 = CloseAction.noop
    else
      List.lookup id (connectionUpdateP0 now st id (closeUpd err)).1.sessions = none ∧
      (connectionUpdateP0 now st id (closeUpd err)).2 = CloseAction.noop ∧
      statusLastError (connectionUpdateP0 now st id (closeUpd err)).1.statusStore id = some (some (errMessage err)) ∧
      (connectionUpdateIx now st id (closeUpd err)).1.sessions = st.sessions ∧
      (connectionUpdateIx now st id (closeUpd err)).2 = CloseAction.noop ∧
      statusLastError (connectionUpdateIx now st id (closeUpd err)).1.statusStore id = some (some (errMessage err)) := by
  by_cases h1 : isLoggedOutClose err = true
  · simp only [h1, if_true]
    refine ⟨?_, ?_, ?_, ?_⟩ <;>
      simp [connectionUpdateP0, connectionUpdateIx, closeUpd, h1, destroySocket,
        lookup_alDel_self, statusLastError, lookup_setStatus_self, StatusFields.apply]
  · by_cases h2 : isExhaustionMsg (errMessage err) = true
    · simp only [h1, h2, if_true, if_false, eq_false_of_ne_true h1]
      refine ⟨?_, ?_, ?_, ?_, ?_⟩ <;>
        simp [connectionUpdateP0, connectionUpdateIx, closeUpd, h1, h2, destroySocket,
          lookup_alDel_self, statusLastError, lookup_setStatus_self, StatusFields.apply]
    · simp only [h1, h2, if_false, eq_false_of_ne_true h1, eq_false_of_ne_true h2]
      refine ⟨?_, ?_, ?_, ?_, ?_, ?_⟩ <;>
        simp [connectionUpdateP0, connectionUpdateIx, closeUpd, h1, h2, destroySocket,
          lookup_alDel_self, statusLastError, lookup_setStatus_self, StatusFields.apply]

/-- C3 counterexample: the claim also covers the `src/index.js` close
handlers, but those have no branch (2) or (3): delivering a close event with
the exhaustion reason `QR refs attempts ended` to the index handler leaves
the session in the registry and schedules no recreation, whereas the claim
requires the session to be destroyed and recreated. -/
theorem c3_index_close_keeps_session :
    isLoggedOutClose exhaustionErr = false ∧
    isExhaustionMsg (errMessage exhaustionErr) = true ∧
    (connectionUpdateIx 0 { sessions := [("s1", 7)] } "s1" (closeUpd exhaustionErr)).1.sessions = [("s1", 7)] ∧
    (connectionUpdateIx 0 { sessions := [("s1", 7)] } "s1" (closeUpd exhaustionErr)).2 = CloseAction.noop := by
  decide

/-! ## C4 : the auto-heal path has no retry ceiling -/

theorem connectionUpdateP0_exhaustion_action (now : Nat) (st : SState) (id : String) :
    (connectionUpdateP0 now st id (closeUpd exhaustionErr)).2 = CloseAction.recreate 1500 := by
  have h1 : isLoggedOutClose exhaustionErr = false := by decide
  have h2 : isExhaustionMsg (errMessage exhaustionErr) = true := by decide
  simp [connectionUpdateP0, closeUpd, h1, h2]

/-- C4 amended: the auto-heal path applies no retry ceiling at all: every
exhaustion-classified closure schedules a destroy-and-recreate, so an
unbroken sequence of `k` exhaustion-classified closures performs exactly `k`
automatic recreations, for every `k` — there is no bound after which the
failure surfaces as `lastError` instead of another recreation. -/
theorem c4_autoheal_has_no_ceiling (now : Nat) (id : String) (k : Nat) (st : SState) :
    (autoHealSteps now id k st).1 = k := by
  induction k generalizing st with
  | zero => rfl
  | succ k ih =>
    rcases hcu : connectionUpdateP0 now st id (closeUpd exhaustionErr) with ⟨st1, act⟩
    have hact : act = CloseAction.recreate 1500 := by
      have h := connectionUpdateP0_exhaustion_action now st id
      rw [hcu] at h
      exact h
    subst hact
    simp [autoHealSteps, hcu, ih]

/-- C4 counterexample: four consecutive exhaustion-classified closures of
the same session cause four automatic recreations, exceeding the claimed
ceiling of 3. -/
theorem c4_four_closures_four_recreations :
    (autoHealSteps 0 "s1" 4 { sessions := [("s1", 0)], nextSock := 1 }).1 = 4 ∧
    ¬ (autoHealSteps 0 "s1" 4 { sessions := [("s1", 0)], nextSock := 1 }).1 ≤ 3 := by
  decide

/-! ## C7 : logged-out closes do not purge credentials -/

theorem connectionUpdateP0_disk (now : Nat) (st : SState) (id : String) (u : ConnUpdate) :
    (connectionUpdateP0 now st id u).1.disk = st.disk := by
  rcases u with ⟨uc, uq, ul⟩
  cases uq <;>
    by_cases h1 : (uc == some "open") = true <;>
      by_cases h2 : (uc == some "close") = true <;>
        by_cases h3 : isLoggedOutClose ul = true <;>
          by_cases h4 : isExhaustionMsg (errMessage ul) = true <;>
            simp [connectionUpdateP0, destroySocket, h1, h2, h3, h4]

theorem connectionUpdateIx_disk (now : Nat) (st : SState) (id : String) (u : ConnUpdate) :
    (connectionUpdateIx now st id u).1.disk = st.disk := by
  rcases u with ⟨uc, uq, ul⟩
  cases uq <;>
    by_cases h1 : (uc == some "open") = true <;>
      by_cases h2 : (uc == some "close") = true <;>
        by_cases h3 : isLoggedOutClose ul = true <;>
          simp [connectionUpdateIx, h1, h2, h3]

/-- C7: a close event classified as logged-out removes the in-memory
session (registry entry and cached artifact) in both handler variants but
leaves the on-disk credential material unchanged — indeed no
`connection.update` event ever touches the disk — so the next
`createSession(id)` loads exactly the credential state that was on disk
before the close.  Only the explicit reset operations purge credentials. -/
theorem c7_loggedout_keeps_credentials (now n2 : Nat) (st : SState) (id : String)
    (err : Option CloseErr) (u : ConnUpdate) (h : isLoggedOutClose err = true) :
    (connectionUpdateP0 now st id u).1.disk = st.disk ∧
    (connectionUpdateIx now st id u).1.disk = st.disk ∧
    List.lookup id (connectionUpdateP0 now st id (closeUpd err)).1.sessions = none ∧
    List.lookup id (connectionUpdateP0 now st id (closeUpd err)).1.qrStore = none ∧
    (connectionUpdateP0 now st id (closeUpd err)).2 = CloseAction.noop ∧
    List.lookup id (connectionUpdateIx now st id (closeUpd err)).1.sessions = none ∧
    List.lookup id (connectionUpdateIx now st id (closeUpd err)).1.qrStore = none ∧
    (createWhatsAppSession n2 (connectionUpdateP0 now st id (closeUpd err)).1 id).loadedCreds =
      some ((List.lookup id st.disk).getD ⟨false⟩) ∧
    (createWhatsAppSessionIx n2 (connectionUpdateIx now st id (closeUpd err)).1 id).loadedCreds =
      some ((List.lookup id st.disk).getD ⟨false⟩) := by
  have habsP0 : List.lookup id (connectionUpdateP0 now st id (closeUpd err)).1.sessions = none := by
    simp [connectionUpdateP0, closeUpd, h, destroySocket, lookup_alDel_self]
  have habsIx : List.lookup id (connectionUpdateIx now st id (closeUpd err)).1.sessions = none := by
    simp [connectionUpdateIx, closeUpd, h, lookup_alDel_self]
  refine ⟨connectionUpdateP0_disk now st id u, connectionUpdateIx_disk now st id u,
    habsP0, ?_, ?_, habsIx, ?_, ?_, ?_⟩
  · simp [connectionUpdateP0, closeUpd, h, destroySocket, lookup_alDel_self]
  · simp [connectionUpdateP0, closeUpd, h, destroySocket]
  · simp [connectionUpdateIx, closeUpd, h, lookup_alDel_self]
  · have hcr := createWhatsAppSession_loadedCreds_of_absent n2 _ id habsP0
    rw [connectionUpdateP0_disk] at hcr
    exact hcr
  · have hcr := createWhatsAppSessionIx_loadedCreds_of_absent n2 _ id habsIx
    rw [connectionUpdateIx_disk] at hcr
    exact hcr

/-- A server state with a live registered session, for the C7 witness. -/
def c7State : SState :=
  { sessions := [("s1", 5)], qrStore := [("s1", "qr")],
    statusStore := [], disk := [("s1", ⟨true⟩)], nextSock := 6 }

/-- The logged-out disconnect error (`statusCode = DisconnectReason.loggedOut`). -/
def c7Err : Option CloseErr :=
  some { message := some "Logged Out", statusCode := some 401, payloadMessage := none }

/-- C7 witness: on a live registered session, a logged-out close removes the
in-memory session while the on-disk credentials survive and are reloaded by
the next create. -/
theorem c7_loggedout_keeps_credentials_witness :
    List.lookup "s1" (connectionUpdateP0 0 c7State "s1" (closeUpd c7Err)).1.sessions = none ∧
    (createWhatsAppSession 1 (connectionUpdateP0 0 c7State "s1" (closeUpd c7Err)).1 "s1").loadedCreds =
      some ((List.lookup "s1" c7State.disk).getD ⟨false⟩) := by
  have h := c7_loggedout_keeps_credentials 0 1 c7State "s1" c7Err (closeUpd c7Err) (by decide)
  exact ⟨h.2.2.1, h.2.2.2.2.2.2.2.1⟩

/-! ## C1 : the duplicate-construction race in `getOrCreate` -/

/-- C1 counterexample: `createWhatsAppSession` commits the socket into the
registry only after the `await useMultiFileAuthState` / `await
fetchLatestBaileysVersion` suspension points, with no reservation before
them.  Under the schedule in which caller `B`'s presence check runs while
caller `A` is suspended at the credential load, both callers construct a
socket (two constructions) and they finish holding different handles — the
claim requires exactly one construction and a shared session. -/
theorem c1_race_two_constructions :
    (raceRun 0 "s1" [true, false, true, true, false, false] raceInit).constructions = 2 ∧
    (raceRun 0 "s1" [true, false, true, true, false, false] raceInit).taskA = CreatePC.finished 0 ∧
    (raceRun 0 "s1" [true, false, true, true, false, false] raceInit).taskB = CreatePC.finished 1 := by
  decide

/-- The race state after caller `A` has run to completion alone: one
construction, handle `0` committed for `"s1"`, `B` still at its entry. -/
def raceMid : RaceState :=
  { server := { sessions := [("s1", 0)], qrStore := [], statusStore := [("s1", { fields := { phase := some "created", connected := some false, hasQr := some false, registered := some false }, updatedAt := some 0 })], disk := [], nextSock := 1 },
    constructions := 1, taskA := .finished 0, taskB := .entry }

/-- `raceMid` after `B` also finished (by reusing `A`'s committed handle). -/
def raceFin : RaceState :=
  { raceMid with taskB := .finished 0 }

theorem raceStep_absorb (pick : Bool) :
    (raceStep 0 "s1" raceMid pick = raceMid ∨ raceStep 0 "s1" raceMid pick = raceFin) ∧
    raceStep 0 "s1" raceFin pick = raceFin := by
  cases pick
  · exact ⟨Or.inr (by decide), by decide⟩
  · exact ⟨Or.inl (by decide), by decide⟩

theorem raceRun_absorbed (sched : List Bool) (rs : RaceState)
    (h : rs = raceMid ∨ rs = raceFin) :
    raceRun 0 "s1" sched rs = raceMid ∨ raceRun 0 "s1" sched rs = raceFin := by
  induction sched generalizing rs with
  | nil => simpa [raceRun] using h
  | cons p t ih =>
    have hstep : raceStep 0 "s1" rs p = raceMid ∨ raceStep 0 "s1" rs p = raceFin := by
      rcases h with h | h <;> subst h
      · exact (raceStep_absorb p).1
      · exact Or.inr ((raceStep_absorb p).2)
    simpa [raceRun, List.foldl_cons] using ih (raceStep 0 "s1" rs p) hstep

/-- C1 amended: the registry commit happens only after the asynchronous
credential load, so two callers whose presence checks both run before
either commit each construct their own connection (see the counterexample);
what does hold is that once one caller's construction has been committed,
any schedule of the remaining steps performs no further construction — the
second caller's presence check observes the committed handle and returns
it, so both callers end up with the same session. -/
theorem c1_commit_after_load_reuse (sched : List Bool) :
    (raceRun 0 "s1" ([true, true, true] ++ sched) raceInit).constructions = 1 ∧
    (raceRun 0 "s1" ([true, true, true] ++ sched) raceInit).taskA = CreatePC.finished 0 ∧
    ((raceRun 0 "s1" ([true, true, true] ++ sched) raceInit).taskB = CreatePC.entry ∨
     (raceRun 0 "s1" ([true, true, true] ++ sched) raceInit).taskB = CreatePC.finished 0) := by
  have hsplit : raceRun 0 "s1" ([true, true, true] ++ sched) raceInit =
      raceRun 0 "s1" sched raceMid := by
    unfold raceRun
    rw [List.foldl_append]
    rw [show List.foldl (raceStep 0 "s1") raceInit [true, true, true] = raceMid from by decide]
  rw [hsplit]
  rcases raceRun_absorbed sched raceMid (Or.inl rfl) with h | h <;> rw [h] <;>
    exact ⟨by decide, by decide, by decide⟩

/-! ## C6 / C9 : the pairing flow -/

/-- The result component of a pairing attempt, determined by the
environment's verdict for that attempt. -/
def attemptSig : AttemptRes → Except String String
  | .waitFail e => .error e
  | .codeFail e => .error e
  | .codeOk c => .ok c

theorem pairAttemptP0_sig (now : Nat) (env : Nat → AttemptRes) (phone id : String)
    (k : Nat) (st : SState) :
    (pairAttemptP0 now env phone id k st).2.2 = attemptSig (env k) := by
  cases h : env k <;> simp [pairAttemptP0, h, attemptSig]

theorem pairAttemptIx_sig (now : Nat) (env : Nat → AttemptRes) (phone id : String)
    (k : Nat) (st : SState) :
    (pairAttemptIx now env phone id k st).2.2 = attemptSig (env k) := by
  cases h : env k <;>
    by_cases hk : 1 < k <;>
      cases hL : List.lookup id st.sessions <;>
        simp [pairAttemptIx, h, hk, attemptSig, createWhatsAppSessionIx, hL, destroySocket,
          lookup_alDel_self]

theorem pairAttemptP0_destroyCount (now : Nat) (env : Nat → AttemptRes) (phone id : String)
    (k : Nat) (st : SState) :
    destroyCount (pairAttemptP0 now env phone id k st).2.1 = 1 := by
  cases h : env k <;>
    simp [pairAttemptP0, h, destroyCount, isDestroyAct, List.filter_append, List.filter]

theorem pairAttemptIx_destroyCount (now : Nat) (env : Nat → AttemptRes) (phone id : String)
    (k : Nat) (st : SState) :
    destroyCount (pairAttemptIx now env phone id k st).2.1 = if 1 < k then 1 else 0 := by
  cases h : env k <;>
    by_cases hk : 1 < k <;>
      cases hL : List.lookup id st.sessions <;>
        simp [pairAttemptIx, h, hk, destroyCount, isDestroyAct, List.filter_append, List.filter,
          createWhatsAppSessionIx, hL, destroySocket, lookup_alDel_self]

theorem pairAttemptP0_phase_ok (now : Nat) (env : Nat → AttemptRes) (phone id : String)
    (k : Nat) (st : SState) (c : String) (h : env k = .codeOk c) :
    statusPhase (pairAttemptP0 now env phone id k st).1.statusStore id =
      some (some "pairing_code_issued") := by
  simp [pairAttemptP0, h, statusPhase, lookup_setStatus_self, StatusFields.apply]

theorem pairAttemptIx_phase_ok (now : Nat) (env : Nat → AttemptRes) (phone id : String)
    (k : Nat) (st : SState) (c : String) (h : env k = .codeOk c) :
    statusPhase (pairAttemptIx now env phone id k st).1.statusStore id =
      some (some "pairing_code_issued") := by
  by_cases hk : 1 < k <;>
    cases hL : List.lookup id st.sessions <;>
      simp [pairAttemptIx, h, hk, statusPhase, lookup_setStatus_self, StatusFields.apply,
        createWhatsAppSessionIx, hL, destroySocket, lookup_alDel_self]

theorem retryRun_trace_all (P : PairAct → Bool)
    (attemptFn : Nat → SState → SState × List PairAct × Except String String) (delayMs : Nat)
    (hA : ∀ i st, ((attemptFn i st).2.1).all P = true)
    (hD : P (.delayStep delayMs) = true) :
    ∀ (i n : Nat) (last : Option String) (st : SState),
      ((retryRun attemptFn delayMs i n last st).2.1).all P = true := by
  intro i n
  induction n generalizing i with
  | zero => intro last st; simp [retryRun]
  | succ n ih =>
    intro last st
    rcases ha : attemptFn i st with ⟨st1, tr, r⟩
    have htr : tr.all P = true := by
      have h := hA i st
      rw [ha] at h
      exact h
    cases r with
    | ok c => simp [retryRun, ha, htr]
    | error e =>
      rcases hrec : retryRun attemptFn delayMs (i + 1) n (some e) st1 with ⟨st2, tr2, m, r2⟩
      have h2 : tr2.all P = true := by
        have h := ih (i + 1) (some e) st1
        rw [hrec] at h
        exact h
      simp [retryRun, ha, hrec, List.all_append, htr, h2, hD]

theorem pairRouteP0_of_retry (now : Nat) (env : Nat → AttemptRes) (st : SState)
    (id : String) (body : Option String) (st1 : SState) (tr : List PairAct) (m : Nat)
    (r : Except (Option String) String)
    (h : ¬ normalizePhone (body.getD "") = "")
    (hr : retryRun (pairAttemptP0 now env (normalizePhone (body.getD "")) id) 3000 1 3 none st =
      (st1, tr, m, r)) :
    pairRouteP0 now env st id body =
      match r with
      | .ok c => (st1, tr, m, .ok c)
      | .error e =>
        ({ st1 with statusStore := setStatus now st1.statusStore id [.phase "pairing_failed", .lastError (e.getD "unknown")] }, tr, m, .serverError (e.getD "unknown")) := by
  cases r <;> simp [pairRouteP0, h, hr]

theorem pairRouteIx_of_retry (now : Nat) (env : Nat → AttemptRes) (st : SState)
    (id : String) (body : Option String) (st1 : SState) (tr : List PairAct) (m : Nat)
    (r : Except (Option String) String)
    (h : ¬ normalizePhone (body.getD "") = "")
    (hr : retryRun (pairAttemptIx now env (normalizePhone (body.getD "")) id) 2000 1 3 none st =
      (st1, tr, m, r)) :
    pairRouteIx now env st id body =
      match r with
      | .ok c => (st1, tr, m, .ok c)
      | .error e =>
        ({ st1 with statusStore := setStatus now st1.statusStore id [.phase "pairing_failed", .lastError (e.getD "unknown")] }, tr, m, .serverError (e.getD "unknown")) := by
  cases r <;> simp [pairRouteIx, h, hr]

theorem retryRun_zero (attemptFn : Nat → SState → SState × List PairAct × Except String String)
    (delayMs i : Nat) (last : Option String) (st : SState) :
    retryRun attemptFn delayMs i 0 last st = (st, [], 0, .error last) := rfl

theorem retryRun_succ_ok (attemptFn : Nat → SState → SState × List PairAct × Except String String)
    (delayMs i n : Nat) (last : Option String) (st st1 : SState) (tr : List PairAct) (c : String)
    (ha : attemptFn i st = (st1, tr, .ok c)) :
    retryRun attemptFn delayMs i (n + 1) last st = (st1, tr, 1, .ok c) := by
  simp [retryRun, ha]

theorem retryRun_succ_err (attemptFn : Nat → SState → SState × List PairAct × Except String String)
    (delayMs i n : Nat) (last : Option String) (st st1 : SState) (tr : List PairAct) (e : String)
    (ha : attemptFn i st = (st1, tr, .error e)) :
    retryRun attemptFn delayMs i (n + 1) last st =
      ((retryRun attemptFn delayMs (i + 1) n (some e) st1).1,
       tr ++ [.delayStep delayMs] ++ (retryRun attemptFn delayMs (i + 1) n (some e) st1).2.1,
       (retryRun attemptFn delayMs (i + 1) n (some e) st1).2.2.1 + 1,
       (retryRun attemptFn delayMs (i + 1) n (some e) st1).2.2.2) := by
  rcases hrec : retryRun attemptFn delayMs (i + 1) n (some e) st1 with ⟨st2, tr2, m, r⟩
  simp [retryRun, ha, hrec]

theorem destroyCount_append (l1 l2 : List PairAct) :
    destroyCount (l1 ++ l2) = destroyCount l1 + destroyCount l2 := by
  simp [destroyCount, List.filter_append]

theorem destroyCount_delay (d : Nat) : destroyCount [PairAct.delayStep d] = 0 := rfl

theorem destroyCount_nil : destroyCount [] = 0 := rfl

theorem destroyCount_cons_delay (d : Nat) (l : List PairAct) :
    destroyCount (PairAct.delayStep d :: l) = destroyCount l := rfl

theorem isOk_false_of_sig_err (x : AttemptRes) (e : String) (h : attemptSig x = .error e) :
    x.isOk = false := by
  cases x <;> simp_all [attemptSig, AttemptRes.isOk]

theorem isOk_true_of_sig_ok (x : AttemptRes) (c : String) (h : attemptSig x = .ok c) :
    x.isOk = true := by
  cases x <;> simp_all [attemptSig, AttemptRes.isOk]

theorem attemptCode_of_sig_ok (x : AttemptRes) (c : String) (h : attemptSig x = .ok c) :
    attemptCode x = c := by
  cases x <;> simp_all [attemptSig, attemptCode]

theorem attemptErr_of_sig_err (x : AttemptRes) (e : String) (h : attemptSig x = .error e) :
    attemptErr x = e := by
  cases x <;> simp_all [attemptSig, attemptErr]

theorem codeOk_of_sig_ok (x : AttemptRes) (c : String) (h : attemptSig x = .ok c) :
    x = .codeOk c := by
  cases x <;> simp_all [attemptSig]

theorem retryRun3_main (env : Nat → AttemptRes)
    (attemptFn : Nat → SState → SState × List PairAct × Except String String)
    (delayMs : Nat) (st : SState) (id : String) (dc : Nat → Nat)
    (hsig : ∀ k s, (attemptFn k s).2.2 = attemptSig (env k))
    (hdc : ∀ k s, destroyCount (attemptFn k s).2.1 = dc k)
    (hphase : ∀ k s c, env k = .codeOk c →
      statusPhase (attemptFn k s).1.statusStore id = some (some "pairing_code_issued")) :
    if (env 1).isOk = true then
      (retryRun attemptFn delayMs 1 3 none st).2.2.1 = 1 ∧
      (retryRun attemptFn delayMs 1 3 none st).2.2.2 = .ok (attemptCode (env 1)) ∧
      destroyCount (retryRun attemptFn delayMs 1 3 none st).2.1 = dc 1 ∧
      statusPhase (retryRun attemptFn delayMs 1 3 none st).1.statusStore id = some (some "pairing_code_issued")
    else if (env 2).isOk = true then
      (retryRun attemptFn delayMs 1 3 none st).2.2.1 = 2 ∧
      (retryRun attemptFn delayMs 1 3 none st).2.2.2 = .ok (attemptCode (env 2)) ∧
      destroyCount (retryRun attemptFn delayMs 1 3 none st).2.1 = dc 1 + dc 2 ∧
      statusPhase (retryRun attemptFn delayMs 1 3 none st).1.statusStore id = some (some "pairing_code_issued")
    else if (env 3).isOk = true then
      (retryRun attemptFn delayMs 1 3 none st).2.2.1 = 3 ∧
      (retryRun attemptFn delayMs 1 3 none st).2.2.2 = .ok (attemptCode (env 3)) ∧
      destroyCount (retryRun attemptFn delayMs 1 3 none st).2.1 = dc 1 + dc 2 + dc 3 ∧
      statusPhase (retryRun attemptFn delayMs 1 3 none st).1.statusStore id = some (some "pairing_code_issued")
    else
      (retryRun attemptFn delayMs 1 3 none st).2.2.1 = 3 ∧
      (retryRun attemptFn delayMs 1 3 none st).2.2.2 = .error (some (attemptErr (env 3))) ∧
      destroyCount (retryRun attemptFn delayMs 1 3 none st).2.1 = dc 1 + dc 2 + dc 3 := by
  rcases ha1 : attemptFn 1 st with ⟨s1, t1, r1⟩
  have hr1 : r1 = attemptSig (env 1) := by
    have h := hsig 1 st
    rw [ha1] at h
    exact h
  have hdc1 : destroyCount t1 = dc 1 := by
    have h := hdc 1 st
    rw [ha1] at h
    exact h
  rcases hs1 : attemptSig (env 1) with c1 | e1
  -- NB: Except constructor order is error first
  all_goals rw [hs1] at hr1
  · -- env 1 fails
    subst hr1
    rw [isOk_false_of_sig_err _ _ hs1]
    have hstep1 := retryRun_succ_err attemptFn delayMs 1 2 none st s1 t1 c1 ha1
    rcases ha2 : attemptFn 2 s1 with ⟨s2, t2, r2⟩
    have hr2 : r2 = attemptSig (env 2) := by
      have h := hsig 2 s1
      rw [ha2] at h
      exact h
    have hdc2 : destroyCount t2 = dc 2 := by
      have h := hdc 2 s1
      rw [ha2] at h
      exact h
    rcases hs2 : attemptSig (env 2) with c2 | e2
    all_goals rw [hs2] at hr2
    · -- env 2 fails
      subst hr2
      rw [isOk_false_of_sig_err _ _ hs2]
      have hstep2 := retryRun_succ_err attemptFn delayMs 2 1 (some c1) s1 s2 t2 c2 ha2
      rcases ha3 : attemptFn 3 s2 with ⟨s3, t3, r3⟩
      have hr3 : r3 = attemptSig (env 3) := by
        have h := hsig 3 s2
        rw [ha3] at h
        exact h
      have hdc3 : destroyCount t3 = dc 3 := by
        have h := hdc 3 s2
        rw [ha3] at h
        exact h
      rcases hs3 : attemptSig (env 3) with c3 | e3
      all_goals rw [hs3] at hr3
      · -- env 3 fails: overall failure
        subst hr3
        rw [isOk_false_of_sig_err _ _ hs3]
        have hstep3 := retryRun_succ_err attemptFn delayMs 3 0 (some c2) s2 s3 t3 c3 ha3
        simp only [if_false, Bool.false_eq_true]
        rw [hstep1, hstep2, hstep3, retryRun_zero]
        refine ⟨rfl, ?_, ?_⟩
        · simp [attemptErr_of_sig_err _ _ hs3]
        · simp [destroyCount_append, destroyCount_delay, destroyCount_nil, destroyCount_cons_delay, hdc1, hdc2, hdc3]
          omega
      · -- env 3 succeeds
        subst hr3
        rw [isOk_true_of_sig_ok _ _ hs3]
        have hstep3 := retryRun_succ_ok attemptFn delayMs 3 0 (some c2) s2 s3 t3 e3 ha3
        simp only [if_false, if_true, Bool.false_eq_true]
        rw [hstep1, hstep2, hstep3]
        refine ⟨rfl, ?_, ?_, ?_⟩
        · simp [attemptCode_of_sig_ok _ _ hs3]
        · simp [destroyCount_append, destroyCount_delay, destroyCount_nil, destroyCount_cons_delay, hdc1, hdc2, hdc3]
          omega
        · have h := hphase 3 s2 e3 (codeOk_of_sig_ok _ _ hs3)
          rw [ha3] at h
          exact h
    · -- env 2 succeeds
      subst hr2
      rw [isOk_true_of_sig_ok _ _ hs2]
      have hstep2 := retryRun_succ_ok attemptFn delayMs 2 1 (some c1) s1 s2 t2 e2 ha2
      simp only [if_false, if_true, Bool.false_eq_true]
      rw [hstep1, hstep2]
      refine ⟨rfl, ?_, ?_, ?_⟩
      · simp [attemptCode_of_sig_ok _ _ hs2]
      · simp [destroyCount_append, destroyCount_delay, destroyCount_nil, destroyCount_cons_delay, hdc1, hdc2]
      · have h := hphase 2 s1 e2 (codeOk_of_sig_ok _ _ hs2)
        rw [ha2] at h
        exact h
  · -- env 1 succeeds
    subst hr1
    rw [isOk_true_of_sig_ok _ _ hs1]
    have hstep1 := retryRun_succ_ok attemptFn delayMs 1 2 none st s1 t1 e1 ha1
    simp only [if_true]
    rw [hstep1]
    refine ⟨rfl, ?_, hdc1, ?_⟩
    · simp [attemptCode_of_sig_ok _ _ hs1]
    · have h := hphase 1 st e1 (codeOk_of_sig_ok _ _ hs1)
      rw [ha1] at h
      exact h

theorem pairAttemptP0_trace_all (P : PairAct → Bool) (now : Nat) (env : Nat → AttemptRes)
    (phone id : String) (k : Nat) (st : SState)
    (hphase : ∀ s, P (.phaseMark s) = true)
    (hdestroy : P .destroy = true)
    (hcreate : ∀ b, P (.create b) = true)
    (hwait : ∀ b, P (.waitOpen b) = true)
    (hreq : P (.reqCode phone) = true)
    (hiss : P .issued = true) :
    ((pairAttemptP0 now env phone id k st).2.1).all P = true := by
  cases h : env k <;> simp [pairAttemptP0, h, hphase, hdestroy, hcreate, hwait, hreq, hiss]

theorem pairAttemptIx_trace_all (P : PairAct → Bool) (now : Nat) (env : Nat → AttemptRes)
    (phone id : String) (k : Nat) (st : SState)
    (hphase : ∀ s, P (.phaseMark s) = true)
    (hdestroy : P .destroy = true)
    (hcreate : ∀ b, P (.create b) = true)
    (hwait : ∀ b, P (.waitOpen b) = true)
    (hreq : P (.reqCode phone) = true)
    (hiss : P .issued = true) :
    ((pairAttemptIx now env phone id k st).2.1).all P = true := by
  cases h : env k <;>
    by_cases hk : 1 < k <;>
      simp [pairAttemptIx, h, hk, hphase, hdestroy, hcreate, hwait, hreq, hiss]

theorem statusPhase_pairing_failed (now : Nat) (store : List (String × StatusRecord))
    (id : String) (msg : String) :
    statusPhase (setStatus now store id [.phase "pairing_failed", .lastError msg]) id =
      some (some "pairing_failed") ∧
    statusLastError (setStatus now store id [.phase "pairing_failed", .lastError msg]) id =
      some (some msg) := by
  simp [statusPhase, statusLastError, lookup_setStatus_self, StatusFields.apply]

/-- C6 amended: for every valid pairing request both `POST /pair` variants
run the bounded retry loop with exactly 3 attempts and a fixed
inter-attempt delay (3000 ms in the P0 variant, 2000 ms in the index
variant).  Each attempt recreates the session if absent, waits for open
with a bounded timeout, then requests the pairing code; the first success
returns the code immediately with phase `pairing_code_issued`; if all 3
attempts fail, the last attempt's error is surfaced with phase
`pairing_failed` and `lastError`.  The force-destroy-and-recreate runs only
on attempts after the first in the index variant, but in the P0 variant it
runs on every attempt including the first (force-destroy count = executed
attempts there, executed attempts − 1 in the index variant). -/
theorem c6_pair_retry_loop (now : Nat) (env : Nat → AttemptRes) (st : SState) (id : String)
    (body : Option String) :
    if normalizePhone (body.getD "") = "" then
      pairRouteP0 now env st id body = (st, [], 0, .badRequest) ∧
      pairRouteIx now env st id body = (st, [], 0, .badRequest)
    else
      delaysAllAre 3000 (pairRouteP0 now env st id body).2.1 = true ∧
      delaysAllAre 2000 (pairRouteIx now env st id body).2.1 = true ∧
      (if (env 1).isOk = true then
        (pairRouteP0 now env st id body).2.2.1 = 1 ∧
        (pairRouteP0 now env st id body).2.2.2 = PairResp.ok (attemptCode (env 1)) ∧
        statusPhase (pairRouteP0 now env st id body).1.statusStore id = some (some "pairing_code_issued") ∧
        destroyCount (pairRouteP0 now env st id body).2.1 = 1 ∧
        (pairRouteIx now env st id body).2.2.1 = 1 ∧
        (pairRouteIx now env st id body).2.2.2 = PairResp.ok (attemptCode (env 1)) ∧
        statusPhase (pairRouteIx now env st id body).1.statusStore id = some (some "pairing_code_issued") ∧
        destroyCount (pairRouteIx now env st id body).2.1 = 0
      else if (env 2).isOk = true then
        (pairRouteP0 now env st id body).2.2.1 = 2 ∧
        (pairRouteP0 now env st id body).2.2.2 = PairResp.ok (attemptCode (env 2)) ∧
        statusPhase (pairRouteP0 now env st id body).1.statusStore id = some (some "pairing_code_issued") ∧
        destroyCount (pairRouteP0 now env st id body).2.1 = 2 ∧
        (pairRouteIx now env st id body).2.2.1 = 2 ∧
        (pairRouteIx now env st id body).2.2.2 = PairResp.ok (attemptCode (env 2)) ∧
        statusPhase (pairRouteIx now env st id body).1.statusStore id = some (some "pairing_code_issued") ∧
        destroyCount (pairRouteIx now env st id body).2.1 = 1
      else if (env 3).isOk = true then
        (pairRouteP0 now env st id body).2.2.1 = 3 ∧
        (pairRouteP0 now env st id body).2.2.2 = PairResp.ok (attemptCode (env 3)) ∧
        statusPhase (pairRouteP0 now env st id body).1.statusStore id = some (some "pairing_code_issued") ∧
        destroyCount (pairRouteP0 now env st id body).2.1 = 3 ∧
        (pairRouteIx now env st id body).2.2.1 = 3 ∧
        (pairRouteIx now env st id body).2.2.2 = PairResp.ok (attemptCode (env 3)) ∧
        statusPhase (pairRouteIx now env st id body).1.statusStore id = some (some "pairing_code_issued") ∧
        destroyCount (pairRouteIx now env st id body).2.1 = 2
      else
        (pairRouteP0 now env st id body).2.2.1 = 3 ∧
        (pairRouteP0 now env st id body).2.2.2 = PairResp.serverError (attemptErr (env 3)) ∧
        statusPhase (pairRouteP0 now env st id body).1.statusStore id = some (some "pairing_failed") ∧
        statusLastError (pairRouteP0 now env st id body).1.statusStore id = some (some (attemptErr (env 3))) ∧
        destroyCount (pairRouteP0 now env st id body).2.1 = 3 ∧
        (pairRouteIx now env st id body).2.2.1 = 3 ∧
        (pairRouteIx now env st id body).2.2.2 = PairResp.serverError (attemptErr (env 3)) ∧
        statusPhase (pairRouteIx now env st id body).1.statusStore id = some (some "pairing_failed") ∧
        statusLastError (pairRouteIx now env st id body).1.statusStore id = some (some (attemptErr (env 3))) ∧
        destroyCount (pairRouteIx now env st id body).2.1 = 2) := by
  by_cases hph : normalizePhone (body.getD "") = ""
  · simp only [hph, if_true]
    exact ⟨by simp [pairRouteP0, hph], by simp [pairRouteIx, hph]⟩
  · simp only [hph, if_false]
    rcases hrP : retryRun (pairAttemptP0 now env (normalizePhone (body.getD "")) id) 3000 1 3 none st
      with ⟨sP, tP, mP, rP⟩
    rcases hrI : retryRun (pairAttemptIx now env (normalizePhone (body.getD "")) id) 2000 1 3 none st
      with ⟨sI, tI, mI, rI⟩
    have hRP := pairRouteP0_of_retry now env st id body sP tP mP rP hph hrP
    have hRI := pairRouteIx_of_retry now env st id body sI tI mI rI hph hrI
    have hmainP := retryRun3_main env (pairAttemptP0 now env (normalizePhone (body.getD "")) id)
      3000 st id (fun _ => 1)
      (fun k s => pairAttemptP0_sig now env (normalizePhone (body.getD "")) id k s)
      (fun k s => pairAttemptP0_destroyCount now env (normalizePhone (body.getD "")) id k s)
      (fun k s c hc => pairAttemptP0_phase_ok now env (normalizePhone (body.getD "")) id k s c hc)
    have hmainI := retryRun3_main env (pairAttemptIx now env (normalizePhone (body.getD "")) id)
      2000 st id (fun k => if 1 < k then 1 else 0)
      (fun k s => pairAttemptIx_sig now env (normalizePhone (body.getD "")) id k s)
      (fun k s => pairAttemptIx_destroyCount now env (normalizePhone (body.getD "")) id k s)
      (fun k s c hc => pairAttemptIx_phase_ok now env (normalizePhone (body.getD "")) id k s c hc)
    rw [hrP] at hmainP
    rw [hrI] at hmainI
    have hdelP : delaysAllAre 3000 tP = true := by
      have h := retryRun_trace_all (fun a => match a with | .delayStep x => x == 3000 | _ => true)
        (pairAttemptP0 now env (normalizePhone (body.getD "")) id) 3000
        (fun i s => pairAttemptP0_trace_all _ now env _ id i s
          (fun _ => rfl) rfl (fun _ => rfl) (fun _ => rfl) rfl rfl)
        (by simp) 1 3 none st
      rw [hrP] at h
      exact h
    have hdelI : delaysAllAre 2000 tI = true := by
      have h := retryRun_trace_all (fun a => match a with | .delayStep x => x == 2000 | _ => true)
        (pairAttemptIx now env (normalizePhone (body.getD "")) id) 2000
        (fun i s => pairAttemptIx_trace_all _ now env _ id i s
          (fun _ => rfl) rfl (fun _ => rfl) (fun _ => rfl) rfl rfl)
        (by simp) 1 3 none st
      rw [hrI] at h
      exact h
    by_cases h1 : (env 1).isOk = true
    · simp only [h1, if_true] at hmainP hmainI ⊢
      obtain ⟨hmP, hrPv, hdcP, hphP⟩ := hmainP
      obtain ⟨hmI, hrIv, hdcI, hphI⟩ := hmainI
      subst hrPv
      subst hrIv
      rw [hRP, hRI]
      exact ⟨hdelP, hdelI, hmP, rfl, hphP, hdcP, hmI, rfl, hphI, by simpa using hdcI⟩
    · by_cases h2 : (env 2).isOk = true
      · simp only [h1, h2, if_true, if_false, Bool.false_eq_true] at hmainP hmainI ⊢
        obtain ⟨hmP, hrPv, hdcP, hphP⟩ := hmainP
        obtain ⟨hmI, hrIv, hdcI, hphI⟩ := hmainI
        subst hrPv
        subst hrIv
        rw [hRP, hRI]
        exact ⟨hdelP, hdelI, hmP, rfl, hphP, by simpa using hdcP, hmI, rfl, hphI, by simpa using hdcI⟩
      · by_cases h3 : (env 3).isOk = true
        · simp only [h1, h2, h3, if_true, if_false, Bool.false_eq_true] at hmainP hmainI ⊢
          obtain ⟨hmP, hrPv, hdcP, hphP⟩ := hmainP
          obtain ⟨hmI, hrIv, hdcI, hphI⟩ := hmainI
          subst hrPv
          subst hrIv
          rw [hRP, hRI]
          exact ⟨hdelP, hdelI, hmP, rfl, hphP, by simpa using hdcP, hmI, rfl, hphI, by simpa using hdcI⟩
        · simp only [h1, h2, h3, if_false, Bool.false_eq_true] at hmainP hmainI ⊢
          obtain ⟨hmP, hrPv, hdcP⟩ := hmainP
          obtain ⟨hmI, hrIv, hdcI⟩ := hmainI
          subst hrPv
          subst hrIv
          rw [hRP, hRI]
          have hfP := statusPhase_pairing_failed now sP.statusStore id (attemptErr (env 3))
          have hfI := statusPhase_pairing_failed now sI.statusStore id (attemptErr (env 3))
          exact ⟨hdelP, hdelI, hmP, by simp, by simpa using hfP.1, by simpa using hfP.2,
            by simpa using hdcP, hmI, by simp, by simpa using hfI.1, by simpa using hfI.2,
            by simpa using hdcI⟩

/-- C9: the pairing request's phone number is normalized to exactly its
decimal-digit characters (every non-digit removed); when the input is
missing or normalizes to the empty string, both route variants reject the
request synchronously with a 400 error, returning the server state
untouched and performing no session work (empty action trace, zero
attempts); otherwise every pairing-code request issued by the flow carries
the normalized number. -/
theorem c9_phone_normalization (now : Nat) (env : Nat → AttemptRes) (st : SState) (id : String)
    (body : Option String) (c : Char) :
    (c ∈ (normalizePhone (body.getD "")).data ↔ c ∈ (body.getD "").data ∧ c.isDigit = true) ∧
    (if normalizePhone (body.getD "") = "" then
       pairRouteP0 now env st id body = (st, [], 0, .badRequest) ∧
       pairRouteIx now env st id body = (st, [], 0, .badRequest)
     else
       reqCodesAllUse (normalizePhone (body.getD "")) (pairRouteP0 now env st id body).2.1 = true ∧
       reqCodesAllUse (normalizePhone (body.getD "")) (pairRouteIx now env st id body).2.1 = true) := by
  constructor
  · simp [normalizePhone, List.mem_filter]
  · by_cases hph : normalizePhone (body.getD "") = ""
    · simp only [hph, if_true]
      exact ⟨by simp [pairRouteP0, hph], by simp [pairRouteIx, hph]⟩
    · simp only [hph, if_false]
      rcases hrP : retryRun (pairAttemptP0 now env (normalizePhone (body.getD "")) id) 3000 1 3 none st
        with ⟨sP, tP, mP, rP⟩
      rcases hrI : retryRun (pairAttemptIx now env (normalizePhone (body.getD "")) id) 2000 1 3 none st
        with ⟨sI, tI, mI, rI⟩
      have hRP := pairRouteP0_of_retry now env st id body sP tP mP rP hph hrP
      have hRI := pairRouteIx_of_retry now env st id body sI tI mI rI hph hrI
      have htrP : (pairRouteP0 now env st id body).2.1 = tP := by
        cases rP <;> simp [hRP]
      have htrI : (pairRouteIx now env st id body).2.1 = tI := by
        cases rI <;> simp [hRI]
      rw [htrP, htrI]
      constructor
      · have h := retryRun_trace_all
          (fun a => match a with | .reqCode x => x == normalizePhone (body.getD "") | _ => true)
          (pairAttemptP0 now env (normalizePhone (body.getD "")) id) 3000
          (fun i s => pairAttemptP0_trace_all _ now env _ id i s
            (fun _ => rfl) rfl (fun _ => rfl) (fun _ => rfl) (by simp) rfl)
          rfl 1 3 none st
        rw [hrP] at h
        exact h
      · have h := retryRun_trace_all
          (fun a => match a with | .reqCode x => x == normalizePhone (body.getD "") | _ => true)
          (pairAttemptIx now env (normalizePhone (body.getD "")) id) 2000
          (fun i s => pairAttemptIx_trace_all _ now env _ id i s
            (fun _ => rfl) rfl (fun _ => rfl) (fun _ => rfl) (by simp) rfl)
          rfl 1 3 none st
        rw [hrI] at h
        exact h

/-- C6 counterexample: the claim says the session is force-destroyed and
recreated on each attempt after the first "(and only after the first)", but
the `part_000` pairing flow calls `destroySocket(sessionId)` unconditionally
at the start of every attempt: with an environment in which the very first
attempt succeeds, the attempt-1 trace already contains the force-destroy
(before the create), so a destroy happens on the first attempt too. -/
theorem c6_first_attempt_also_destroys :
    (pairRouteP0 0 (fun _ => .codeOk "ABCD-EFGH") {} "s1" (some "+336 12-34")).2.2.1 = 1 ∧
    (pairRouteP0 0 (fun _ => .codeOk "ABCD-EFGH") {} "s1" (some "+336 12-34")).2.1 =
      [.phaseMark "pair_attempt_1", .destroy, .create true, .waitOpen true, .reqCode "3361234", .issued] ∧
    destroyCount (pairRouteP0 0 (fun _ => .codeOk "ABCD-EFGH") {} "s1" (some "+336 12-34")).2.1 = 1 := by
  decide

end WaServer
